import Mathlib

/-!
Shallow embedding of the pocketbase-swagger HTTP handler layer.

Each Go handler is translated into a pure Lean function.  Calls into
external collaborators (form binding, form submission, hook triggers,
the gorm storage layer, the backups filesystem) are modelled as oracle
inputs: a field of the handler's input structure holds the value that
the collaborator call returned, and the Lean function reproduces the
handler's own control flow on those values.  Observable side effects
(which HTTP response was produced, whether the after-request trigger
fired, what was logged) are returned in the handler's output structure.
-/

namespace PBSwagger

/-- Model of a Go `error` value.  `raw` is an arbitrary error produced by a
collaborator; `apiError`/`apiErrorWith` model the `*ApiError` values built by
the `NewBadRequestError`/`NewNotFoundError`/`NewForbiddenError` helpers
(status code, message, optional wrapped cause); `duplicatedKey` models
`gorm.ErrDuplicatedKey` so that `errors.Is(err, gorm.ErrDuplicatedKey)` can be
evaluated. -/
inductive GoError where
  | raw (msg : String)
  | duplicatedKey
  | apiError (status : Nat) (message : String)
  | apiErrorWith (status : Nat) (message : String) (cause : GoError)
deriving DecidableEq, Repr

/-- `NewBadRequestError(message, err)`. -/
def newBadRequestError (message : String) (cause : Option GoError) : GoError :=
  match cause with
  | none => .apiError 400 message
  | some e => .apiErrorWith 400 message e

/-- `NewNotFoundError(message, err)`. -/
def newNotFoundError (message : String) (cause : Option GoError) : GoError :=
  match cause with
  | none => .apiError 404 message
  | some e => .apiErrorWith 404 message e

/-- `err.Error()` on our error model. -/
def errString : GoError → String
  | .raw msg => msg
  | .duplicatedKey => "duplicated key not allowed"
  | .apiError _ message => message
  | .apiErrorWith _ message _ => message

/-- `errors.Is(err, gorm.ErrDuplicatedKey)`, unwrapping the api-error chain. -/
def isDuplicatedKey : GoError → Bool
  | .duplicatedKey => true
  | .apiErrorWith _ _ cause => isDuplicatedKey cause
  | _ => false

/-! ## users list endpoint (`usersApi.listUsers` in `src/apis/users.go`)

`listUsers` first fills a `UserMetaAdmin` value with the defaults
`Meta{Limit: 20}` and `Admin: false` (the other fields get Go zero values)
and then lets `c.Bind` overwrite every field for which the client supplied
a query parameter.  We model the successfully-bound request as a record of
optional raw query parameters and `bindUsersListQuery` as the resulting
`UserMetaAdmin` value. -/

/-- The typed query parameters of a `GET /users/` request, `none` when the
corresponding parameter is absent from the query string. -/
structure UsersListQuery where
  limit : Option Int
  offset : Option Int
  count : Option Int
  search : Option String
  admin : Option Bool
deriving DecidableEq, Repr

/-- The bound `UserMetaAdmin` struct (embedded `Meta` flattened). -/
structure UserMetaAdmin where
  admin : Bool
  limit : Int
  offset : Int
  count : Int
  search : String
deriving DecidableEq, Repr

/-- `meta := &UserMetaAdmin{Meta: Meta{Limit: 20}, Admin: false}` followed by
`c.Bind(meta)`: a present query parameter overwrites the initial value, an
absent one leaves it. -/
def bindUsersListQuery (q : UsersListQuery) : UserMetaAdmin :=
  { admin := q.admin.getD false
    limit := q.limit.getD 20
    offset := q.offset.getD 0
    count := q.count.getD 0
    search := q.search.getD "" }

/-- A gorm query under construction: the targeted model, the pagination
bounds that were applied (`none` when the corresponding method was never
called), and the accumulated `Where` clauses, each a pair of the literal
condition string handed to gorm and the list of bound `?` parameters. -/
structure GormQuery where
  model : String
  limit : Option Int
  offset : Option Int
  whereConds : List (String × List String)
deriving DecidableEq, Repr

/-- The item-fetch query of `listUsers`:
`reg.DB.WithContext(...).Model(&models.User{}).Limit(meta.Limit).Offset(meta.Offset)`
then `query = query.Where("name LIKE ?", meta.Search+"%")` when
`meta.Search != ""`. -/
def usersItemQuery (m : UserMetaAdmin) : GormQuery :=
  { model := "users"
    limit := some m.limit
    offset := some m.offset
    whereConds :=
      if m.search ≠ "" then [("name LIKE ?", [m.search ++ "%"])] else [] }

/-- The total-count query of `listUsers`:
`reg.DB.WithContext(...).Model(&models.User{})` then the same conditional
`Where`, followed by `query.Count(&meta.Count)` — no `Limit`, no `Offset`. -/
def usersCountQuery (m : UserMetaAdmin) : GormQuery :=
  { model := "users"
    limit := none
    offset := none
    whereConds :=
      if m.search ≠ "" then [("name LIKE ?", [m.search ++ "%"])] else [] }

/-! ## Hook-wrapped mutating handlers

Every mutating admin/collection/settings handler ends with the same tail:

```
if submitErr == nil {
    if err := api.app.OnXAfterYRequest().Trigger(event); err != nil && api.app.IsDebug() {
        log.Println(err)
    }
}
return submitErr
```

`HookOut` records the caller-visible return value, whether the
after-request trigger was invoked, and what `log.Println` received. -/

/-- Observable outcome of a hook-wrapped mutating handler. -/
structure HookOut where
  ret : Option GoError
  afterTriggered : Bool
  logged : List GoError
deriving DecidableEq, Repr

/-- A handler outcome produced before the submit phase was ever reached:
the after-request trigger is not invoked and nothing is logged. -/
def noAfter (ret : Option GoError) : HookOut :=
  { ret := ret, afterTriggered := false, logged := [] }

/-- The shared handler tail quoted above: `submitErr` is what the
before-phase submission returned, `afterErr` what the after-request trigger
returns when invoked, `isDebug` the value of `api.app.IsDebug()`. -/
def afterTail (submitErr afterErr : Option GoError) (isDebug : Bool) : HookOut :=
  match submitErr with
  | some e => { ret := some e, afterTriggered := false, logged := [] }
  | none =>
    { ret := none
      afterTriggered := true
      logged :=
        match afterErr with
        | some e => if isDebug then [e] else []
        | none => [] }

/-- Oracle inputs of a handler of the shape bind-form / submit / after-tail
(`adminApi.create`, `adminApi.authWithPassword`,
`adminApi.confirmPasswordReset`, `settingsApi.set`, `collectionApi.create`,
`collectionApi.bulkImport`). -/
structure BindSubmitIn where
  bindErr : Option GoError
  submitErr : Option GoError
  afterErr : Option GoError
  isDebug : Bool
deriving DecidableEq, Repr

/-- `adminApi.create` (`src/apis/admin.go`). -/
def adminCreate (i : BindSubmitIn) : HookOut :=
  match i.bindErr with
  | some e =>
      noAfter (some (newBadRequestError
        "Failed to load the submitted data due to invalid formatting." (some e)))
  | none => afterTail i.submitErr i.afterErr i.isDebug

/-- `adminApi.authWithPassword` (`src/apis/admin.go`); `submitErr` is the
second return value of `form.Submit`. -/
def adminAuthWithPassword (i : BindSubmitIn) : HookOut :=
  match i.bindErr with
  | some e =>
      noAfter (some (newBadRequestError
        "An error occurred while loading the submitted data." (some e)))
  | none => afterTail i.submitErr i.afterErr i.isDebug

/-- `adminApi.confirmPasswordReset` (`src/apis/admin.go`). -/
def adminConfirmPasswordReset (i : BindSubmitIn) : HookOut :=
  match i.bindErr with
  | some e =>
      noAfter (some (newBadRequestError
        "An error occurred while loading the submitted data." (some e)))
  | none => afterTail i.submitErr i.afterErr i.isDebug

/-- `settingsApi.set` (`src/apis/settings.go`, `src/unnamed/part_000`). -/
def settingsSet (i : BindSubmitIn) : HookOut :=
  match i.bindErr with
  | some e =>
      noAfter (some (newBadRequestError
        "An error occurred while loading the submitted data." (some e)))
  | none => afterTail i.submitErr i.afterErr i.isDebug

/-- `collectionApi.create` (`src/unnamed/part_001`). -/
def collectionCreate (i : BindSubmitIn) : HookOut :=
  match i.bindErr with
  | some e =>
      noAfter (some (newBadRequestError
        "Failed to load the submitted data due to invalid formatting." (some e)))
  | none => afterTail i.submitErr i.afterErr i.isDebug

/-- `collectionApi.bulkImport` (`src/unnamed/part_001`). -/
def collectionsImport (i : BindSubmitIn) : HookOut :=
  match i.bindErr with
  | some e =>
      noAfter (some (newBadRequestError
        "Failed to load the submitted data due to invalid formatting." (some e)))
  | none => afterTail i.submitErr i.afterErr i.isDebug

/-- Oracle inputs of `adminApi.update`: path id, result of
`FindAdminById` (`findErr` models `err != nil`, `foundModel` models
`admin != nil`), then bind / submit / after. -/
structure AdminFindBindSubmitIn where
  idParam : String
  findErr : Option GoError
  foundModel : Bool
  bindErr : Option GoError
  submitErr : Option GoError
  afterErr : Option GoError
  isDebug : Bool
deriving DecidableEq, Repr

/-- `adminApi.update` (`src/apis/admin.go`). -/
def adminUpdate (i : AdminFindBindSubmitIn) : HookOut :=
  if i.idParam = "" then noAfter (some (newNotFoundError "" none))
  else if i.findErr.isSome ∨ i.foundModel = false then
    noAfter (some (newNotFoundError "" i.findErr))
  else
    match i.bindErr with
    | some e =>
        noAfter (some (newBadRequestError
          "Failed to load the submitted data due to invalid formatting." (some e)))
    | none => afterTail i.submitErr i.afterErr i.isDebug

/-- Oracle inputs of `adminApi.delete`: path id, `FindAdminById` result,
then the before-delete trigger result and the after tail. -/
structure AdminFindTriggerIn where
  idParam : String
  findErr : Option GoError
  foundModel : Bool
  triggerErr : Option GoError
  afterErr : Option GoError
  isDebug : Bool
deriving DecidableEq, Repr

/-- `adminApi.delete` (`src/apis/admin.go`); `triggerErr` is what
`OnAdminBeforeDeleteRequest().Trigger(event, terminal)` returned. -/
def adminDelete (i : AdminFindTriggerIn) : HookOut :=
  if i.idParam = "" then noAfter (some (newNotFoundError "" none))
  else if i.findErr.isSome ∨ i.foundModel = false then
    noAfter (some (newNotFoundError "" i.findErr))
  else afterTail i.triggerErr i.afterErr i.isDebug

/-- Oracle inputs of `adminApi.authRefresh`: whether a `*models.Admin` was
present in the request context, then the before trigger result and the
after tail. -/
structure AuthRefreshIn where
  adminInContext : Bool
  triggerErr : Option GoError
  afterErr : Option GoError
  isDebug : Bool
deriving DecidableEq, Repr

/-- `adminApi.authRefresh` (`src/apis/admin.go`). -/
def adminAuthRefresh (i : AuthRefreshIn) : HookOut :=
  if i.adminInContext = false then
    noAfter (some (newNotFoundError "Missing auth admin context." none))
  else afterTail i.triggerErr i.afterErr i.isDebug

/-- Oracle inputs of `collectionApi.update`: `FindCollectionByNameOrId`
result, then bind / submit / after. -/
structure CollFindBindSubmitIn where
  findErr : Option GoError
  foundModel : Bool
  bindErr : Option GoError
  submitErr : Option GoError
  afterErr : Option GoError
  isDebug : Bool
deriving DecidableEq, Repr

/-- `collectionApi.update` (`src/unnamed/part_001`). -/
def collectionUpdate (i : CollFindBindSubmitIn) : HookOut :=
  if i.findErr.isSome ∨ i.foundModel = false then
    noAfter (some (newNotFoundError "" i.findErr))
  else
    match i.bindErr with
    | some e =>
        noAfter (some (newBadRequestError
          "Failed to load the submitted data due to invalid formatting." (some e)))
    | none => afterTail i.submitErr i.afterErr i.isDebug

/-- Oracle inputs of `collectionApi.delete`. -/
structure CollFindTriggerIn where
  findErr : Option GoError
  foundModel : Bool
  triggerErr : Option GoError
  afterErr : Option GoError
  isDebug : Bool
deriving DecidableEq, Repr

/-- `collectionApi.delete` (`src/unnamed/part_001`); `triggerErr` is what
`OnCollectionBeforeDeleteRequest().Trigger(event, terminal)` returned. -/
def collectionDelete (i : CollFindTriggerIn) : HookOut :=
  if i.findErr.isSome ∨ i.foundModel = false then
    noAfter (some (newNotFoundError "" i.findErr))
  else afterTail i.triggerErr i.afterErr i.isDebug

/-! ## `adminApi.requestPasswordReset` (`src/apis/admin.go`)

The reset side effect (`next(e.Admin)`) runs inside
`routine.FireAndForget`; its error is logged only in debug mode.  On the
submit path the handler always returns `nil`, sending a 204 response at
the end when nothing was committed yet ("don't return the response error
to prevent emails enumeration"). -/

/-- Oracle inputs of `adminApi.requestPasswordReset`.  `detachedRan` is
whether the submission pipeline reached the `routine.FireAndForget` call
(i.e. the before-request chain invoked the interceptor body), and
`detachedErr` is what `next(e.Admin)` returned inside the detached task. -/
structure PwdResetIn where
  bindErr : Option GoError
  validateErr : Option GoError
  submitErr : Option GoError
  afterErr : Option GoError
  detachedRan : Bool
  detachedErr : Option GoError
  responseCommitted : Bool
  isDebug : Bool
deriving DecidableEq, Repr

/-- Observable outcome of `adminApi.requestPasswordReset`. -/
structure PwdResetOut where
  ret : Option GoError
  afterTriggered : Bool
  logged : List GoError
  detachedLogged : List GoError
  sent204AtEnd : Bool
deriving DecidableEq, Repr

/-- `adminApi.requestPasswordReset` (`src/apis/admin.go`). -/
def adminRequestPasswordReset (i : PwdResetIn) : PwdResetOut :=
  match i.bindErr with
  | some e =>
    { ret := some (newBadRequestError
        "An error occurred while loading the submitted data." (some e))
      afterTriggered := false, logged := [], detachedLogged := []
      sent204AtEnd := false }
  | none =>
  match i.validateErr with
  | some e =>
    { ret := some (newBadRequestError
        "An error occurred while validating the form." (some e))
      afterTriggered := false, logged := [], detachedLogged := []
      sent204AtEnd := false }
  | none =>
    let detachedLogged : List GoError :=
      if i.detachedRan then
        match i.detachedErr with
        | some e => if i.isDebug then [e] else []
        | none => []
      else []
    match i.submitErr with
    | some e =>
      { ret := none
        afterTriggered := false
        logged := if i.isDebug then [e] else []
        detachedLogged := detachedLogged
        sent204AtEnd := !i.responseCommitted }
    | none =>
      { ret := none
        afterTriggered := true
        logged :=
          match i.afterErr with
          | some e => if i.isDebug then [e] else []
          | none => []
        detachedLogged := detachedLogged
        sent204AtEnd := !i.responseCommitted }

/-! ## List endpoints with a search provider (`adminApi.list`,
`collectionApi.list`) -/

/-- Oracle inputs of the two search-provider list handlers:
`parseExecErr` is the error component of
`search.NewProvider(fieldResolver).Query(...).ParseAndExec(...)`, and
`listTriggerRet` is what the list-request trigger returns when fired. -/
structure ListIn where
  parseExecErr : Option GoError
  listTriggerRet : Option GoError
deriving DecidableEq, Repr

/-- Observable outcome of a list handler. -/
structure ListOut where
  ret : Option GoError
  listTriggered : Bool
deriving DecidableEq, Repr

/-- `adminApi.list` (`src/apis/admin.go`). -/
def adminsList (i : ListIn) : ListOut :=
  match i.parseExecErr with
  | some e => { ret := some (newBadRequestError "" (some e)), listTriggered := false }
  | none => { ret := i.listTriggerRet, listTriggered := true }

/-- `collectionApi.list` (`src/unnamed/part_001`). -/
def collectionsList (i : ListIn) : ListOut :=
  match i.parseExecErr with
  | some e => { ret := some (newBadRequestError "" (some e)), listTriggered := false }
  | none => { ret := i.listTriggerRet, listTriggered := true }

/-! ## `usersApi.deleteUser`, `usersApi.postUser`, `usersApi.patchUser`
(`src/apis/users.go`) -/

/-- What a users-api handler hands back to echo: either it produced a JSON /
no-content response with the given HTTP status, or it returned a non-nil
error directly (the `registry.Get` failure path). -/
inductive UsersApiOut where
  | respond (status : Nat)
  | errReturn (e : GoError)
deriving DecidableEq, Repr

/-- Oracle inputs of `usersApi.deleteUser`: the `id` query parameter, the
`registry.Get` error, and the result of
`query.Unscoped().Delete(&models.User{})` (`RowsAffected` and `Error`). -/
structure DeleteUserIn where
  id : String
  regErr : Option GoError
  rowsAffected : Nat
  dbErr : Option GoError
deriving DecidableEq, Repr

/-- `usersApi.deleteUser` (`src/apis/users.go`): the `RowsAffected == 0`
check comes before the `result.Error` check. -/
def deleteUser (i : DeleteUserIn) : UsersApiOut :=
  if i.id = "" then .respond 400
  else
    match i.regErr with
    | some e => .errReturn e
    | none =>
      if i.rowsAffected = 0 then .respond 404
      else
        match i.dbErr with
        | some _ => .respond 500
        | none => .respond 204

/-- `models.UserPure` flattened (`src/models/users.go`): the request body
of `POST /user`. -/
structure UserPure where
  name : String
  email : String
  groups : String
  password : String
deriving DecidableEq, Repr

/-- The `models.User` value handed to `reg.DB...Create` (timestamps
omitted: gorm fills them). -/
structure UserRecord where
  userPure : UserPure
  id : String
deriving DecidableEq, Repr

/-- Oracle inputs of `usersApi.postUser`: bind result, the bound body,
`registry.Get` error, `uuid.NewUUID` result, and the `Create` error. -/
structure PostUserIn where
  bindErr : Option GoError
  body : UserPure
  regErr : Option GoError
  uuidErr : Option GoError
  uuid : String
  createErr : Option GoError
deriving DecidableEq, Repr

/-- Observable outcome of `usersApi.postUser`: the response, and the
record that was handed to `Create` when the insert was issued. -/
structure PostUserOut where
  out : UsersApiOut
  insertIssued : Option UserRecord
deriving DecidableEq, Repr

/-- `usersApi.postUser` (`src/apis/users.go`), parametrized by the
`HashPassword` collaborator (`bcrypt.GenerateFromPassword`); `none` models
a hashing error. -/
def postUser (hash : String → Option String) (i : PostUserIn) : PostUserOut :=
  match i.bindErr with
  | some _ => { out := .respond 400, insertIssued := none }
  | none =>
  if i.body.name = "" then { out := .respond 400, insertIssued := none }
  else if i.body.password = "" then { out := .respond 400, insertIssued := none }
  else
    match hash i.body.password with
    | none => { out := .respond 500, insertIssued := none }
    | some hashed =>
      match i.regErr with
      | some e => { out := .errReturn e, insertIssued := none }
      | none =>
      match i.uuidErr with
      | some _ => { out := .respond 500, insertIssued := none }
      | none =>
        let created : UserRecord :=
          { userPure := { i.body with password := hashed }, id := i.uuid }
        let response : UsersApiOut :=
          match i.createErr with
          | some e => if isDuplicatedKey e then .respond 409 else .respond 500
          | none => .respond 200
        { out := response, insertIssued := some created }

/-- One decoded JSON value inside the `map[string]interface{}` body of
`PATCH /user`: `str`/`num`/`boolean`/`null` come from `encoding/json`,
`bytes` models a `[]byte` value written into the map by the handler
itself (the bcrypt hash, the re-marshalled groups). -/
inductive JsonVal where
  | str (s : String)
  | num (n : Int)
  | boolean (b : Bool)
  | null
  | bytes (s : String)
deriving DecidableEq, Repr

/-- `json.Marshal` on the values our `JsonVal` model can hold. -/
def jsonMarshal : JsonVal → String
  | .str s => "\"" ++ s ++ "\""
  | .num n => toString n
  | .boolean b => if b then "true" else "false"
  | .null => "null"
  | .bytes s => s

/-- Go map assignment `m[k] = v` on an association-list model, for the
case where `k` is already present (the only case the handler performs). -/
def setKey (m : List (String × JsonVal)) (k : String) (v : JsonVal) :
    List (String × JsonVal) :=
  m.map (fun p => if p.1 = k then (k, v) else p)

/-- Oracle inputs of `usersApi.patchUser`: bind result, the decoded body
map, `registry.Get` error, and the `Updates` error. -/
structure PatchUserIn where
  bindErr : Option GoError
  body : List (String × JsonVal)
  regErr : Option GoError
  updateErr : Option GoError
deriving DecidableEq, Repr

/-- Observable outcome of `usersApi.patchUser`: the response, and the map
that was handed to `query.Updates` when the update was issued. -/
structure PatchUserOut where
  out : UsersApiOut
  updatesIssued : Option (List (String × JsonVal))
deriving DecidableEq, Repr

/-- The groups re-marshalling step of `patchUser`:
`if body["groups"] != nil { body["groups"] = json.Marshal(...) }` (an
absent key and an explicit JSON `null` both read back as a nil
interface). -/
def patchGroupsStep (m : List (String × JsonVal)) : List (String × JsonVal) :=
  match m.lookup "groups" with
  | none => m
  | some .null => m
  | some v => setKey m "groups" (.bytes (jsonMarshal v))

/-- `usersApi.patchUser` (`src/apis/users.go`), parametrized by the
`HashPassword` collaborator.  Note: the password is hashed only when
`body["password"].(string)` succeeds; a present non-string value is left
in the map untouched. -/
def patchUser (hash : String → Option String) (i : PatchUserIn) : PatchUserOut :=
  match i.bindErr with
  | some _ => { out := .respond 400, updatesIssued := none }
  | none =>
  match i.body.lookup "id" with
  | some (.str v) =>
    if v = "" then { out := .respond 400, updatesIssued := none }
    else
      let afterPassword : Option (List (String × JsonVal)) :=
        match i.body.lookup "password" with
        | some (.str pw) =>
          match hash pw with
          | none => none
          | some hashed => some (setKey i.body "password" (.bytes hashed))
        | _ => some i.body
      match afterPassword with
      | none => { out := .respond 500, updatesIssued := none }
      | some m1 =>
        let m2 := patchGroupsStep m1
        match i.regErr with
        | some e => { out := .errReturn e, updatesIssued := none }
        | none =>
          let response : UsersApiOut :=
            match i.updateErr with
            | some e => if isDuplicatedKey e then .respond 409 else .respond 500
            | none => .respond 200
          { out := response, updatesIssued := some m2 }
  | _ => { out := .respond 400, updatesIssued := none }

/-- A concrete stand-in for the bcrypt collaborator, used to evaluate the
password handlers on concrete inputs. -/
def demoHash (s : String) : Option String := some ("bcrypt$" ++ s)

/-! ## Backup handlers (`src/apis/backup.go`) -/

/-- `cast.ToString` applied to `app.Cache().Get(core.CacheKeyActiveBackup)`
(`nil` casts to the empty string). -/
def castToString (v : Option String) : String := v.getD ""

/-- Oracle inputs of `backupApi.create`: the active-backup cache entry
(`none` = key absent), the bind result, and what `form.Submit` with its
interceptor ultimately returned. -/
structure BackupCreateIn where
  activeBackup : Option String
  bindErr : Option GoError
  submitRet : Option GoError
deriving DecidableEq, Repr

/-- Observable outcome of `backupApi.create`: the returned value and
whether the backup work (`form.Submit`) was started. -/
structure BackupCreateOut where
  ret : Option GoError
  workStarted : Bool
deriving DecidableEq, Repr

/-- `backupApi.create` (`src/apis/backup.go`). -/
def backupCreate (i : BackupCreateIn) : BackupCreateOut :=
  if i.activeBackup.isSome then
    { ret := some (newBadRequestError
        "Try again later - another backup/restore process has already been started" none)
      workStarted := false }
  else
    match i.bindErr with
    | some e =>
      { ret := some (newBadRequestError
          "An error occurred while loading the submitted data." (some e))
        workStarted := false }
    | none => { ret := i.submitRet, workStarted := true }

/-- Oracle inputs of `backupApi.restore`: the active-backup cache entry,
the unescaped path key, the `NewBackupsFilesystem` error, and the
`fsys.Exists(key)` result. -/
structure BackupRestoreIn where
  activeBackup : Option String
  key : String
  fsysErr : Option GoError
  keyExists : Bool
  existsErr : Option GoError
deriving DecidableEq, Repr

/-- Observable outcome of `backupApi.restore`: the returned value and
whether the detached `RestoreBackup` goroutine was spawned. -/
structure BackupRestoreOut where
  ret : Option GoError
  restoreSpawned : Bool
deriving DecidableEq, Repr

/-- `backupApi.restore` (`src/apis/backup.go`). -/
def backupRestore (i : BackupRestoreIn) : BackupRestoreOut :=
  if i.activeBackup.isSome then
    { ret := some (newBadRequestError
        "Try again later - another backup/restore process has already been started." none)
      restoreSpawned := false }
  else
    match i.fsysErr with
    | some e =>
      { ret := some (newBadRequestError "Failed to load backups filesystem." (some e))
        restoreSpawned := false }
    | none =>
      if i.keyExists = false then
        { ret := some (newBadRequestError "Missing or invalid backup file." i.existsErr)
          restoreSpawned := false }
      else { ret := none, restoreSpawned := true }

/-- Oracle inputs of `backupApi.delete`: the active-backup cache entry,
the path key, the `NewBackupsFilesystem` error, and the `fsys.Delete`
error. -/
structure BackupDeleteIn where
  activeBackup : Option String
  key : String
  fsysErr : Option GoError
  deleteErr : Option GoError
deriving DecidableEq, Repr

/-- Observable outcome of `backupApi.delete`: the returned value and
whether `fsys.Delete(key)` was attempted. -/
structure BackupDeleteOut where
  ret : Option GoError
  deleteAttempted : Bool
deriving DecidableEq, Repr

/-- `backupApi.delete` (`src/apis/backup.go`). -/
def backupDelete (i : BackupDeleteIn) : BackupDeleteOut :=
  match i.fsysErr with
  | some e =>
    { ret := some (newBadRequestError "Failed to load backups filesystem." (some e))
      deleteAttempted := false }
  | none =>
    if i.key ≠ "" ∧ castToString i.activeBackup = i.key then
      { ret := some (newBadRequestError
          "The backup is currently being used and cannot be deleted." none)
        deleteAttempted := false }
    else
      match i.deleteErr with
      | some e =>
        { ret := some (newBadRequestError
            ("Invalid or already deleted backup file. Raw error: \n" ++ errString e) none)
          deleteAttempted := true }
      | none => { ret := none, deleteAttempted := true }

/-! ## Theorems -/

/-- Claim C4, counterexample: a client-supplied `limit` of `-1` is used
as-is by the item-fetch query — the engine does not fall back to a fixed
positive default for a limit ≤ 0. -/
theorem c4_counterexample_negative_limit_passed_through :
    (usersItemQuery (bindUsersListQuery
      { limit := some (-1), offset := none, count := none,
        search := none, admin := none })).limit = some (-1) ∧
    ¬ (0 < (-1 : Int)) := by
  exact ⟨rfl, by decide⟩

/-- Claim C4 (amended): when the client omits the `limit` parameter the
effective limit is the fixed positive default 20, but a client-supplied
limit is passed through to the item-fetch query unchanged, including
values ≤ 0 — there is no positive fallback for them. -/
theorem c4_limit_default_twenty_no_positive_fallback :
    (∀ q : UsersListQuery, q.limit = none →
       (usersItemQuery (bindUsersListQuery q)).limit = some 20) ∧
    (∀ (q : UsersListQuery) (l : Int), q.limit = some l →
       (usersItemQuery (bindUsersListQuery q)).limit = some l) := by
  constructor
  · intro q h
    simp [usersItemQuery, bindUsersListQuery, h]
  · intro q l h
    simp [usersItemQuery, bindUsersListQuery, h]

theorem c4_limit_default_twenty_no_positive_fallback_witness :
    (usersItemQuery (bindUsersListQuery
      { limit := none, offset := none, count := none,
        search := none, admin := none })).limit = some 20 ∧
    (usersItemQuery (bindUsersListQuery
      { limit := some 0, offset := none, count := none,
        search := none, admin := none })).limit = some 0 :=
  ⟨c4_limit_default_twenty_no_positive_fallback.1 _ rfl,
   c4_limit_default_twenty_no_positive_fallback.2 _ 0 rfl⟩

/-- Claim C5: for every bound request, the total-count query of
`listUsers` carries exactly the same `Where` clauses (predicate and bound
parameters) as the item-fetch query, and applies no limit and no
offset. -/
theorem c5_count_query_same_predicate_no_pagination :
    ∀ m : UserMetaAdmin,
      (usersCountQuery m).whereConds = (usersItemQuery m).whereConds ∧
      (usersCountQuery m).limit = none ∧
      (usersCountQuery m).offset = none := by
  intro m
  exact ⟨rfl, rfl, rfl⟩

/-- Claim C6: in both the item query and the count query of `listUsers`,
the SQL condition text is the fixed string `"name LIKE ?"` (or no clause
at all), independent of the search term's content, and the untrusted term
appears only in the bound-parameter list, as `term ++ "%"` behind the `?`
placeholder. -/
theorem c6_search_term_reaches_sql_only_as_bound_parameter :
    ∀ m : UserMetaAdmin,
      (usersItemQuery m).whereConds.map Prod.fst
          = (if m.search = "" then [] else ["name LIKE ?"]) ∧
      (usersCountQuery m).whereConds.map Prod.fst
          = (if m.search = "" then [] else ["name LIKE ?"]) ∧
      (usersItemQuery m).whereConds.map Prod.snd
          = (if m.search = "" then [] else [[m.search ++ "%"]]) ∧
      (usersCountQuery m).whereConds.map Prod.snd
          = (if m.search = "" then [] else [[m.search ++ "%"]]) := by
  intro m
  by_cases h : m.search = "" <;>
    simp [usersItemQuery, usersCountQuery, h]

/-- Helper: the shared handler tail on a nil submit error returns nil,
fires the after trigger, and logs an after-trigger error only in debug
mode. -/
theorem afterTail_ok (a : Option GoError) (d : Bool) :
    (afterTail none a d).ret = none ∧
    (afterTail none a d).afterTriggered = true ∧
    ((afterTail none a d).logged ≠ [] → d = true) := by
  refine ⟨rfl, rfl, ?_⟩
  cases a with
  | none => simp [afterTail]
  | some e => cases d <;> simp [afterTail]

/-- Helper: if the shared handler tail fired the after trigger, the
submit error was nil. -/
theorem afterTail_triggered (s a : Option GoError) (d : Bool)
    (h : (afterTail s a d).afterTriggered = true) : s = none := by
  cases s with
  | none => rfl
  | some e => simp [afterTail] at h

/-- Claim C1: for each of the eleven mutating admin/collection/settings
operations, whenever the before-phase submission returned nil the handler
returns that nil to the caller regardless of what the after-request
trigger returns, and an after-trigger error is at most logged, and only
in debug mode. -/
theorem c1_after_trigger_error_never_surfaces :
    (∀ i : BindSubmitIn, i.bindErr = none → i.submitErr = none →
       (adminCreate i).ret = none ∧
       ((adminCreate i).logged ≠ [] → i.isDebug = true)) ∧
    (∀ i : AdminFindBindSubmitIn, i.idParam ≠ "" → i.findErr = none →
       i.foundModel = true → i.bindErr = none → i.submitErr = none →
       (adminUpdate i).ret = none ∧
       ((adminUpdate i).logged ≠ [] → i.isDebug = true)) ∧
    (∀ i : AdminFindTriggerIn, i.idParam ≠ "" → i.findErr = none →
       i.foundModel = true → i.triggerErr = none →
       (adminDelete i).ret = none ∧
       ((adminDelete i).logged ≠ [] → i.isDebug = true)) ∧
    (∀ i : BindSubmitIn, i.bindErr = none → i.submitErr = none →
       (adminAuthWithPassword i).ret = none ∧
       ((adminAuthWithPassword i).logged ≠ [] → i.isDebug = true)) ∧
    (∀ i : AuthRefreshIn, i.adminInContext = true → i.triggerErr = none →
       (adminAuthRefresh i).ret = none ∧
       ((adminAuthRefresh i).logged ≠ [] → i.isDebug = true)) ∧
    (∀ i : BindSubmitIn, i.bindErr = none → i.submitErr = none →
       (adminConfirmPasswordReset i).ret = none ∧
       ((adminConfirmPasswordReset i).logged ≠ [] → i.isDebug = true)) ∧
    (∀ i : BindSubmitIn, i.bindErr = none → i.submitErr = none →
       (collectionCreate i).ret = none ∧
       ((collectionCreate i).logged ≠ [] → i.isDebug = true)) ∧
    (∀ i : CollFindBindSubmitIn, i.findErr = none → i.foundModel = true →
       i.bindErr = none → i.submitErr = none →
       (collectionUpdate i).ret = none ∧
       ((collectionUpdate i).logged ≠ [] → i.isDebug = true)) ∧
    (∀ i : CollFindTriggerIn, i.findErr = none → i.foundModel = true →
       i.triggerErr = none →
       (collectionDelete i).ret = none ∧
       ((collectionDelete i).logged ≠ [] → i.isDebug = true)) ∧
    (∀ i : BindSubmitIn, i.bindErr = none → i.submitErr = none →
       (collectionsImport i).ret = none ∧
       ((collectionsImport i).logged ≠ [] → i.isDebug = true)) ∧
    (∀ i : BindSubmitIn, i.bindErr = none → i.submitErr = none →
       (settingsSet i).ret = none ∧
       ((settingsSet i).logged ≠ [] → i.isDebug = true)) := by
  refine ⟨?_, ?_, ?_, ?_, ?_, ?_, ?_, ?_, ?_, ?_, ?_⟩
  · intro i h1 h2
    simp only [adminCreate, h1, h2]
    exact ⟨(afterTail_ok i.afterErr i.isDebug).1, (afterTail_ok i.afterErr i.isDebug).2.2⟩
  · intro i h0 h1 h2 h3 h4
    simp only [adminUpdate, h0, h1, h2, h3, h4, if_neg h0, Option.isSome_none]
    simp only [Bool.false_eq_true, or_self, if_false]
    exact ⟨(afterTail_ok i.afterErr i.isDebug).1, (afterTail_ok i.afterErr i.isDebug).2.2⟩
  · intro i h0 h1 h2 h3
    simp only [adminDelete, h0, h1, h2, h3, if_neg h0, Option.isSome_none]
    simp only [Bool.false_eq_true, or_self, if_false]
    exact ⟨(afterTail_ok i.afterErr i.isDebug).1, (afterTail_ok i.afterErr i.isDebug).2.2⟩
  · intro i h1 h2
    simp only [adminAuthWithPassword, h1, h2]
    exact ⟨(afterTail_ok i.afterErr i.isDebug).1, (afterTail_ok i.afterErr i.isDebug).2.2⟩
  · intro i h1 h2
    simp only [adminAuthRefresh, h1, h2]
    simp only [Bool.true_eq_false, if_false]
    exact ⟨(afterTail_ok i.afterErr i.isDebug).1, (afterTail_ok i.afterErr i.isDebug).2.2⟩
  · intro i h1 h2
    simp only [adminConfirmPasswordReset, h1, h2]
    exact ⟨(afterTail_ok i.afterErr i.isDebug).1, (afterTail_ok i.afterErr i.isDebug).2.2⟩
  · intro i h1 h2
    simp only [collectionCreate, h1, h2]
    exact ⟨(afterTail_ok i.afterErr i.isDebug).1, (afterTail_ok i.afterErr i.isDebug).2.2⟩
  · intro i h1 h2 h3 h4
    simp only [collectionUpdate, h1, h2, h3, h4, Option.isSome_none]
    simp only [Bool.false_eq_true, or_self, if_false]
    exact ⟨(afterTail_ok i.afterErr i.isDebug).1, (afterTail_ok i.afterErr i.isDebug).2.2⟩
  · intro i h1 h2 h3
    simp only [collectionDelete, h1, h2, h3, Option.isSome_none]
    simp only [Bool.false_eq_true, or_self, if_false]
    exact ⟨(afterTail_ok i.afterErr i.isDebug).1, (afterTail_ok i.afterErr i.isDebug).2.2⟩
  · intro i h1 h2
    simp only [collectionsImport, h1, h2]
    exact ⟨(afterTail_ok i.afterErr i.isDebug).1, (afterTail_ok i.afterErr i.isDebug).2.2⟩
  · intro i h1 h2
    simp only [settingsSet, h1, h2]
    exact ⟨(afterTail_ok i.afterErr i.isDebug).1, (afterTail_ok i.afterErr i.isDebug).2.2⟩

theorem c1_after_trigger_error_never_surfaces_witness :
    (adminCreate ⟨none, none, some (GoError.raw "afterfail"), true⟩).ret = none ∧
    (adminUpdate ⟨"a1", none, true, none, none, some (GoError.raw "afterfail"), true⟩).ret = none ∧
    (adminDelete ⟨"a1", none, true, none, some (GoError.raw "afterfail"), true⟩).ret = none ∧
    (adminAuthWithPassword ⟨none, none, some (GoError.raw "afterfail"), true⟩).ret = none ∧
    (adminAuthRefresh ⟨true, none, some (GoError.raw "afterfail"), true⟩).ret = none ∧
    (adminConfirmPasswordReset ⟨none, none, some (GoError.raw "afterfail"), true⟩).ret = none ∧
    (collectionCreate ⟨none, none, some (GoError.raw "afterfail"), true⟩).ret = none ∧
    (collectionUpdate ⟨none, true, none, none, some (GoError.raw "afterfail"), true⟩).ret = none ∧
    (collectionDelete ⟨none, true, none, some (GoError.raw "afterfail"), true⟩).ret = none ∧
    (collectionsImport ⟨none, none, some (GoError.raw "afterfail"), true⟩).ret = none ∧
    (settingsSet ⟨none, none, some (GoError.raw "afterfail"), true⟩).ret = none := by
  obtain ⟨t1, t2, t3, t4, t5, t6, t7, t8, t9, t10, t11⟩ :=
    c1_after_trigger_error_never_surfaces
  exact ⟨(t1 _ rfl rfl).1,
         (t2 _ (by decide) rfl rfl rfl rfl).1,
         (t3 _ (by decide) rfl rfl rfl).1,
         (t4 _ rfl rfl).1,
         (t5 _ rfl rfl).1,
         (t6 _ rfl rfl).1,
         (t7 _ rfl rfl).1,
         (t8 _ rfl rfl rfl rfl).1,
         (t9 _ rfl rfl rfl).1,
         (t10 _ rfl rfl).1,
         (t11 _ rfl rfl).1⟩

/-- Claim C2: for each of the twelve mutating operations with an
after-request trigger, the trigger fires only when the before-phase
submission returned nil — an aborted operation has no after-phase. -/
theorem c2_aborted_operation_has_no_after_phase :
    (∀ i : BindSubmitIn, (adminCreate i).afterTriggered = true →
       i.submitErr = none) ∧
    (∀ i : AdminFindBindSubmitIn, (adminUpdate i).afterTriggered = true →
       i.submitErr = none) ∧
    (∀ i : AdminFindTriggerIn, (adminDelete i).afterTriggered = true →
       i.triggerErr = none) ∧
    (∀ i : BindSubmitIn, (adminAuthWithPassword i).afterTriggered = true →
       i.submitErr = none) ∧
    (∀ i : AuthRefreshIn, (adminAuthRefresh i).afterTriggered = true →
       i.triggerErr = none) ∧
    (∀ i : BindSubmitIn, (adminConfirmPasswordReset i).afterTriggered = true →
       i.submitErr = none) ∧
    (∀ i : PwdResetIn, (adminRequestPasswordReset i).afterTriggered = true →
       i.submitErr = none) ∧
    (∀ i : BindSubmitIn, (collectionCreate i).afterTriggered = true →
       i.submitErr = none) ∧
    (∀ i : CollFindBindSubmitIn, (collectionUpdate i).afterTriggered = true →
       i.submitErr = none) ∧
    (∀ i : CollFindTriggerIn, (collectionDelete i).afterTriggered = true →
       i.triggerErr = none) ∧
    (∀ i : BindSubmitIn, (collectionsImport i).afterTriggered = true →
       i.submitErr = none) ∧
    (∀ i : BindSubmitIn, (settingsSet i).afterTriggered = true →
       i.submitErr = none) := by
  refine ⟨?_, ?_, ?_, ?_, ?_, ?_, ?_, ?_, ?_, ?_, ?_, ?_⟩
  · intro i h
    cases hb : i.bindErr with
    | some e => simp [adminCreate, hb, noAfter] at h
    | none =>
      simp only [adminCreate, hb] at h
      exact afterTail_triggered _ _ _ h
  · intro i h
    by_cases h0 : i.idParam = ""
    · simp [adminUpdate, h0, noAfter] at h
    · by_cases h1 : i.findErr.isSome ∨ i.foundModel = false
      · simp [adminUpdate, if_neg h0, if_pos h1, noAfter] at h
      · cases hb : i.bindErr with
        | some e => simp [adminUpdate, if_neg h0, if_neg h1, hb, noAfter] at h
        | none =>
          simp only [adminUpdate, if_neg h0, if_neg h1, hb] at h
          exact afterTail_triggered _ _ _ h
  · intro i h
    by_cases h0 : i.idParam = ""
    · simp [adminDelete, h0, noAfter] at h
    · by_cases h1 : i.findErr.isSome ∨ i.foundModel = false
      · simp [adminDelete, if_neg h0, if_pos h1, noAfter] at h
      · simp only [adminDelete, if_neg h0, if_neg h1] at h
        exact afterTail_triggered _ _ _ h
  · intro i h
    cases hb : i.bindErr with
    | some e => simp [adminAuthWithPassword, hb, noAfter] at h
    | none =>
      simp only [adminAuthWithPassword, hb] at h
      exact afterTail_triggered _ _ _ h
  · intro i h
    cases hc : i.adminInContext with
    | false => simp [adminAuthRefresh, hc, noAfter] at h
    | true =>
      simp only [adminAuthRefresh, hc, Bool.true_eq_false, if_false] at h
      exact afterTail_triggered _ _ _ h
  · intro i h
    cases hb : i.bindErr with
    | some e => simp [adminConfirmPasswordReset, hb, noAfter] at h
    | none =>
      simp only [adminConfirmPasswordReset, hb] at h
      exact afterTail_triggered _ _ _ h
  · intro i h
    cases hb : i.bindErr with
    | some e => simp [adminRequestPasswordReset, hb] at h
    | none =>
      cases hv : i.validateErr with
      | some e => simp [adminRequestPasswordReset, hb, hv] at h
      | none =>
        cases hs : i.submitErr with
        | some e => simp [adminRequestPasswordReset, hb, hv, hs] at h
        | none => rfl
  · intro i h
    cases hb : i.bindErr with
    | some e => simp [collectionCreate, hb, noAfter] at h
    | none =>
      simp only [collectionCreate, hb] at h
      exact afterTail_triggered _ _ _ h
  · intro i h
    by_cases h1 : i.findErr.isSome ∨ i.foundModel = false
    · simp [collectionUpdate, if_pos h1, noAfter] at h
    · cases hb : i.bindErr with
      | some e => simp [collectionUpdate, if_neg h1, hb, noAfter] at h
      | none =>
        simp only [collectionUpdate, if_neg h1, hb] at h
        exact afterTail_triggered _ _ _ h
  · intro i h
    by_cases h1 : i.findErr.isSome ∨ i.foundModel = false
    · simp [collectionDelete, if_pos h1, noAfter] at h
    · simp only [collectionDelete, if_neg h1] at h
      exact afterTail_triggered _ _ _ h
  · intro i h
    cases hb : i.bindErr with
    | some e => simp [collectionsImport, hb, noAfter] at h
    | none =>
      simp only [collectionsImport, hb] at h
      exact afterTail_triggered _ _ _ h
  · intro i h
    cases hb : i.bindErr with
    | some e => simp [settingsSet, hb, noAfter] at h
    | none =>
      simp only [settingsSet, hb] at h
      exact afterTail_triggered _ _ _ h

theorem c2_aborted_operation_has_no_after_phase_witness :
    (⟨none, none, some (GoError.raw "x"), true⟩ : BindSubmitIn).submitErr = none ∧
    (⟨"a1", none, true, none, none, some (GoError.raw "x"), true⟩ :
        AdminFindBindSubmitIn).submitErr = none ∧
    (⟨"a1", none, true, none, some (GoError.raw "x"), true⟩ :
        AdminFindTriggerIn).triggerErr = none ∧
    (⟨true, none, some (GoError.raw "x"), true⟩ : AuthRefreshIn).triggerErr = none ∧
    (⟨none, none, none, some (GoError.raw "x"), true, none, false, true⟩ :
        PwdResetIn).submitErr = none ∧
    (⟨none, true, none, none, some (GoError.raw "x"), true⟩ :
        CollFindBindSubmitIn).submitErr = none ∧
    (⟨none, true, none, some (GoError.raw "x"), true⟩ :
        CollFindTriggerIn).triggerErr = none := by
  obtain ⟨t1, t2, t3, t4, t5, t6, t7, t8, t9, t10, t11, t12⟩ :=
    c2_aborted_operation_has_no_after_phase
  exact ⟨t1 ⟨none, none, some (GoError.raw "x"), true⟩ rfl,
         t2 ⟨"a1", none, true, none, none, some (GoError.raw "x"), true⟩ (by decide),
         t3 ⟨"a1", none, true, none, some (GoError.raw "x"), true⟩ (by decide),
         t5 ⟨true, none, some (GoError.raw "x"), true⟩ rfl,
         t7 ⟨none, none, none, some (GoError.raw "x"), true, none, false, true⟩ rfl,
         t9 ⟨none, true, none, none, some (GoError.raw "x"), true⟩ rfl,
         t10 ⟨none, true, none, some (GoError.raw "x"), true⟩ rfl⟩

/-- Claim C3: for the admins and collections list handlers, whenever
`ParseAndExec` returns a non-nil error the handler returns a bad-request
error (status 400 wrapping that error) and the list-request trigger is
never fired. -/
theorem c3_parse_failure_rejected_before_list_trigger :
    (∀ (i : ListIn) (e : GoError), i.parseExecErr = some e →
       (adminsList i).ret = some (GoError.apiErrorWith 400 "" e) ∧
       (adminsList i).listTriggered = false) ∧
    (∀ (i : ListIn) (e : GoError), i.parseExecErr = some e →
       (collectionsList i).ret = some (GoError.apiErrorWith 400 "" e) ∧
       (collectionsList i).listTriggered = false) := by
  constructor
  · intro i e h
    simp [adminsList, h, newBadRequestError]
  · intro i e h
    simp [collectionsList, h, newBadRequestError]

theorem c3_parse_failure_rejected_before_list_trigger_witness :
    ((adminsList ⟨some (GoError.raw "invalid filter"), none⟩).listTriggered = false ∧
     (collectionsList ⟨some (GoError.raw "invalid filter"), none⟩).listTriggered = false) :=
  ⟨(c3_parse_failure_rejected_before_list_trigger.1
      ⟨some (GoError.raw "invalid filter"), none⟩ (GoError.raw "invalid filter") rfl).2,
   (c3_parse_failure_rejected_before_list_trigger.2
      ⟨some (GoError.raw "invalid filter"), none⟩ (GoError.raw "invalid filter") rfl).2⟩

/-- Claim C7, counterexample: an input whose request binding fails makes
`adminApi.requestPasswordReset` return a non-nil bad-request error, so the
handler does not return nil for every input. -/
theorem c7_counterexample_bind_failure_returns_error :
    (adminRequestPasswordReset
      { bindErr := some (GoError.raw "invalid body"), validateErr := none,
        submitErr := none, afterErr := none, detachedRan := false,
        detachedErr := none, responseCommitted := false, isDebug := false }).ret
      ≠ none := by
  decide

/-- Claim C7 (amended): for every input that passes request binding and
form validation, `adminApi.requestPasswordReset` ultimately returns nil —
even when the form submission fails — responding 204 whenever nothing was
committed yet; the reset side effect runs as a detached fire-and-forget
task whose failure is only logged, and only in debug mode, and never
changes the handler's nil return. -/
theorem c7_password_reset_nil_after_validation :
    ∀ i : PwdResetIn, i.bindErr = none → i.validateErr = none →
      (adminRequestPasswordReset i).ret = none ∧
      ((adminRequestPasswordReset i).detachedLogged ≠ [] → i.isDebug = true) ∧
      ((adminRequestPasswordReset i).logged ≠ [] → i.isDebug = true) ∧
      (i.responseCommitted = false →
        (adminRequestPasswordReset i).sent204AtEnd = true) := by
  intro i h1 h2
  cases hs : i.submitErr <;> cases hd : i.detachedRan <;>
    cases hde : i.detachedErr <;> cases hdbg : i.isDebug <;>
    cases ha : i.afterErr <;> cases hrc : i.responseCommitted <;>
    simp [adminRequestPasswordReset, h1, h2, hs, hd, hde, hdbg, ha, hrc]

theorem c7_password_reset_nil_after_validation_witness :
    (adminRequestPasswordReset
      { bindErr := none, validateErr := none,
        submitErr := some (GoError.raw "mailer down"), afterErr := none,
        detachedRan := true, detachedErr := some (GoError.raw "smtp refused"),
        responseCommitted := false, isDebug := false }).ret = none :=
  (c7_password_reset_nil_after_validation
    { bindErr := none, validateErr := none,
      submitErr := some (GoError.raw "mailer down"), afterErr := none,
      detachedRan := true, detachedErr := some (GoError.raw "smtp refused"),
      responseCommitted := false, isDebug := false } rfl rfl).1

/-- Claim C8: in `usersApi.deleteUser` the zero-rows-affected check comes
before the storage-error check: a delete affecting zero rows yields a 404
even when the storage layer also reported an error, and a 500 occurs only
when a storage error is reported together with at least one affected
row. -/
theorem c8_zero_rows_checked_before_storage_error :
    (∀ i : DeleteUserIn, i.id ≠ "" → i.regErr = none → i.rowsAffected = 0 →
       deleteUser i = .respond 404) ∧
    (∀ i : DeleteUserIn, deleteUser i = .respond 500 →
       i.dbErr ≠ none ∧ i.rowsAffected ≠ 0) := by
  constructor
  · intro i h1 h2 h3
    simp [deleteUser, h1, h2, h3]
  · intro i h
    by_cases hid : i.id = ""
    · simp [deleteUser, hid] at h
    · cases hre : i.regErr with
      | some e => simp [deleteUser, hid, hre] at h
      | none =>
        by_cases hrows : i.rowsAffected = 0
        · simp [deleteUser, hid, hre, hrows] at h
        · cases hdb : i.dbErr with
          | none => simp [deleteUser, hid, hre, hrows, hdb] at h
          | some e => exact ⟨by simp [hdb], hrows⟩

theorem c8_zero_rows_checked_before_storage_error_witness :
    deleteUser
      { id := "u1", regErr := none, rowsAffected := 0,
        dbErr := some (GoError.raw "disk failure") } = .respond 404 :=
  c8_zero_rows_checked_before_storage_error.1
    { id := "u1", regErr := none, rowsAffected := 0,
      dbErr := some (GoError.raw "disk failure") }
    (by decide) rfl rfl

/-- Claim C10: while the active-backup cache key is present, backup
create and backup restore return the bad-request guard error before
starting any backup work, and backup delete refuses exactly the key that
equals the currently active backup. -/
theorem c10_active_backup_guards :
    (∀ (i : BackupCreateIn) (a : String), i.activeBackup = some a →
       (backupCreate i).ret = some (GoError.apiError 400
         "Try again later - another backup/restore process has already been started") ∧
       (backupCreate i).workStarted = false) ∧
    (∀ (i : BackupRestoreIn) (a : String), i.activeBackup = some a →
       (backupRestore i).ret = some (GoError.apiError 400
         "Try again later - another backup/restore process has already been started.") ∧
       (backupRestore i).restoreSpawned = false) ∧
    (∀ (i : BackupDeleteIn) (a : String), i.activeBackup = some a →
       a ≠ "" → i.fsysErr = none →
       (((backupDelete i).ret = some (GoError.apiError 400
           "The backup is currently being used and cannot be deleted.") ∧
         (backupDelete i).deleteAttempted = false) ↔ i.key = a)) := by
  refine ⟨?_, ?_, ?_⟩
  · intro i a h
    simp [backupCreate, h, newBadRequestError]
  · intro i a h
    simp [backupRestore, h, newBadRequestError]
  · intro i a h ha hf
    by_cases hk : i.key = a
    · subst hk
      have hcond : i.key ≠ "" ∧ castToString i.activeBackup = i.key :=
        ⟨ha, by simp [castToString, h]⟩
      simp [backupDelete, hf, if_pos hcond, newBadRequestError]
    · have hcond : ¬ (i.key ≠ "" ∧ castToString i.activeBackup = i.key) := by
        rintro ⟨-, hc⟩
        simp [castToString, h] at hc
        exact hk hc.symm
      cases hd : i.deleteErr with
      | some e => simp [backupDelete, hf, if_neg hcond, hd, hk]
      | none => simp [backupDelete, hf, if_neg hcond, hd, hk]

theorem c10_active_backup_guards_witness :
    (backupCreate { activeBackup := some "pb_backup_1.zip", bindErr := none,
                    submitRet := none }).workStarted = false ∧
    (backupRestore { activeBackup := some "pb_backup_1.zip", key := "other.zip",
                     fsysErr := none, keyExists := true,
                     existsErr := none }).restoreSpawned = false ∧
    (backupDelete { activeBackup := some "pb_backup_1.zip",
                    key := "pb_backup_1.zip", fsysErr := none,
                    deleteErr := none }).deleteAttempted = false := by
  obtain ⟨t1, t2, t3⟩ := c10_active_backup_guards
  refine ⟨(t1 _ "pb_backup_1.zip" rfl).2, (t2 _ "pb_backup_1.zip" rfl).2, ?_⟩
  exact ((t3 { activeBackup := some "pb_backup_1.zip", key := "pb_backup_1.zip",
               fsysErr := none, deleteErr := none }
           "pb_backup_1.zip" rfl (by decide) rfl).mpr rfl).2

/-- Helper: `setKey` on a cons cell, written out. -/
theorem setKey_cons (a : String) (b : JsonVal) (t : List (String × JsonVal))
    (k : String) (v : JsonVal) :
    setKey ((a, b) :: t) k v = (if a = k then (k, v) else (a, b)) :: setKey t k v :=
  rfl

/-- Helper: overwriting a present key makes `lookup` return the new
value. -/
theorem lookup_setKey_same (m : List (String × JsonVal)) (k : String) (v : JsonVal)
    (h : (m.lookup k).isSome) : (setKey m k v).lookup k = some v := by
  induction m with
  | nil => simp [List.lookup] at h
  | cons p t ih =>
    obtain ⟨a, b⟩ := p
    by_cases hk : a = k
    · subst hk
      rw [setKey_cons, if_pos rfl]
      simp [List.lookup]
    · have hbeq : (k == a) = false := by
        simp [Ne.symm hk]
      rw [setKey_cons, if_neg hk]
      simp only [List.lookup, hbeq] at h ⊢
      exact ih h

/-- Helper: overwriting one key leaves `lookup` at a different key
unchanged. -/
theorem lookup_setKey_other (m : List (String × JsonVal)) (k k2 : String) (v : JsonVal)
    (h : k ≠ k2) : (setKey m k2 v).lookup k = m.lookup k := by
  induction m with
  | nil => rfl
  | cons p t ih =>
    obtain ⟨a, b⟩ := p
    by_cases hk : a = k2
    · subst hk
      have hbeq : (k == a) = false := by simp [h]
      rw [setKey_cons, if_pos rfl]
      simp only [List.lookup, hbeq]
      exact ih
    · rw [setKey_cons, if_neg hk]
      simp only [List.lookup]
      cases hkb : (k == a) with
      | true => rfl
      | false => exact ih

/-- Helper: the groups re-marshalling step never touches the
`"password"` entry. -/
theorem lookup_password_patchGroupsStep (m : List (String × JsonVal)) :
    (patchGroupsStep m).lookup "password" = m.lookup "password" := by
  unfold patchGroupsStep
  cases hg : m.lookup "groups" with
  | none => rfl
  | some v =>
    cases v with
    | null => rfl
    | str s => exact lookup_setKey_other _ _ _ _ (by decide)
    | num n => exact lookup_setKey_other _ _ _ _ (by decide)
    | boolean b => exact lookup_setKey_other _ _ _ _ (by decide)
    | bytes s => exact lookup_setKey_other _ _ _ _ (by decide)

/-- Claim C9, counterexample: a `PATCH /user` body that supplies the
password as a JSON number is handed to `Updates` wholly unchanged — the
raw password value `123` is still in the issued update map, unhashed. -/
theorem c9_counterexample_nonstring_password_not_hashed :
    (patchUser demoHash
      { bindErr := none
        body := [("id", .str "u1"), ("password", .num 123)]
        regErr := none, updateErr := none }).updatesIssued
      = some [("id", .str "u1"), ("password", .num 123)] := by
  rfl

/-- Claim C9 (amended): for every hashing collaborator, `postUser` issues
its insert with the password replaced by the hash of the submitted
plaintext, and `patchUser` replaces a supplied string password value with
its hash before issuing the update; a supplied non-string password value,
however, is forwarded to the update unchanged. -/
theorem c9_passwords_hashed_before_write :
    ∀ hash : String → Option String,
      (∀ (i : PostUserIn) (r : UserRecord),
         (postUser hash i).insertIssued = some r →
         hash i.body.password = some r.userPure.password) ∧
      (∀ (i : PatchUserIn) (pw hashed : String) (u : List (String × JsonVal)),
         i.body.lookup "password" = some (.str pw) →
         hash pw = some hashed →
         (patchUser hash i).updatesIssued = some u →
         u.lookup "password" = some (.bytes hashed)) := by
  intro hash
  constructor
  · intro i r h
    cases hb : i.bindErr with
    | some e => simp [postUser, hb] at h
    | none =>
      by_cases hn : i.body.name = ""
      · simp [postUser, hb, hn] at h
      · by_cases hp : i.body.password = ""
        · simp [postUser, hb, hn, hp] at h
        · cases hh : hash i.body.password with
          | none => simp [postUser, hb, hn, hp, hh] at h
          | some hs =>
            cases hre : i.regErr with
            | some e => simp [postUser, hb, hn, hp, hh, hre] at h
            | none =>
              cases hu : i.uuidErr with
              | some e => simp [postUser, hb, hn, hp, hh, hre, hu] at h
              | none =>
                have hr : { userPure := { i.body with password := hs },
                            id := i.uuid : UserRecord } = r := by
                  simpa [postUser, hb, hn, hp, hh, hre, hu] using h
                subst hr
                rfl
  · intro i pw hashed u h1 h2 h3
    cases hb : i.bindErr with
    | some e => simp [patchUser, hb] at h3
    | none =>
      cases hid : i.body.lookup "id" with
      | none => simp [patchUser, hb, hid] at h3
      | some v =>
        cases v with
        | num n => simp [patchUser, hb, hid] at h3
        | boolean b => simp [patchUser, hb, hid] at h3
        | null => simp [patchUser, hb, hid] at h3
        | bytes s => simp [patchUser, hb, hid] at h3
        | str s =>
          by_cases hs : s = ""
          · simp [patchUser, hb, hid, hs] at h3
          · cases hre : i.regErr with
            | some e => simp [patchUser, hb, hid, hs, h1, h2, hre] at h3
            | none =>
              have hu2 : patchGroupsStep
                  (setKey i.body "password" (.bytes hashed)) = u := by
                simpa [patchUser, hb, hid, hs, h1, h2, hre] using h3
              rw [← hu2, lookup_password_patchGroupsStep]
              exact lookup_setKey_same _ _ _ (by rw [h1]; rfl)

theorem c9_passwords_hashed_before_write_witness :
    (demoHash "pa55" = some "bcrypt$pa55" ∧
     demoHash "pa55" =
       some ((postUser demoHash
         { bindErr := none
           body := { name := "userX", email := "", groups := "", password := "pa55" }
           regErr := none, uuidErr := none, uuid := "u-1", createErr := none
         }).insertIssued.getD
           { userPure := { name := "", email := "", groups := "", password := "" },
             id := "" }).userPure.password) ∧
    ((patchUser demoHash
       { bindErr := none
         body := [("id", .str "u1"), ("password", .str "pa55")]
         regErr := none, updateErr := none }).updatesIssued.getD []).lookup "password"
      = some (.bytes "bcrypt$pa55") := by
  refine ⟨⟨rfl, ?_⟩, ?_⟩
  · exact (c9_passwords_hashed_before_write demoHash).1
      { bindErr := none
        body := { name := "userX", email := "", groups := "", password := "pa55" }
        regErr := none, uuidErr := none, uuid := "u-1", createErr := none } _ rfl
  · exact (c9_passwords_hashed_before_write demoHash).2
      { bindErr := none
        body := [("id", .str "u1"), ("password", .str "pa55")]
        regErr := none, updateErr := none } "pa55" "bcrypt$pa55" _ rfl rfl rfl

end PBSwagger
